import Mathlib

/-!
Verification of the Health-Risk-API repository against its specification.

The development shallowly embeds the Python sources:
* dynamic Python values become the inductive type `PyVal`; CPython floats are
  modelled as exact rationals (`PyRat`, a gcd-normalized fraction kept
  fully kernel-computable) and `datetime` values as abstract integer ticks;
* every fallible Python operation (`int(...)`, `float(...)`, attribute access
  such as `.get` or `.lower()` on a value of the wrong type) returns
  `Except Unit _`, and a `try/except` block maps the error case to the
  handler's result;
* the SQLAlchemy session is modelled as an explicit record store `DB`; the
  declared `unique` constraint on `user_data.email` is the modelled commit
  failure; `datetime.utcnow()` is an explicit tick counter;
* the Google Sheets gateway is modelled through its contract: a `Remote`
  holds the three named ranges, reading returns header-keyed string rows,
  and `update_sheets` performs the clear-then-write sequence per range.
-/

/-- Exact rational numbers used to model CPython floats. The representation
is kept normalized (gcd 1, positive denominator) by the smart constructor
`PyRat.mk'`, so structural equality coincides with value equality. -/
structure PyRat where
  num : Int
  den : Nat
deriving DecidableEq

/-- Build a normalized fraction from an integer numerator and denominator.
A zero denominator never arises in the embedded code (the only divisions are
by positive constants or guarded by a positivity check); it is mapped to 0. -/
def PyRat.mk' (n d : Int) : PyRat :=
  if d = 0 then ⟨0, 1⟩
  else
    let n2 : Int := if d < 0 then -n else n
    let dd : Nat := d.natAbs
    let g : Nat := Nat.gcd n2.natAbs dd
    ⟨n2 / (g : Int), dd / g⟩

instance : OfNat PyRat n := ⟨⟨(n : Int), 1⟩⟩

instance : NatCast PyRat := ⟨fun n => ⟨(n : Int), 1⟩⟩

instance : IntCast PyRat := ⟨fun n => ⟨n, 1⟩⟩

/-- Decimal literals such as `0.185` denote the exact rational 185/1000. -/
instance : OfScientific PyRat :=
  ⟨fun m s e => if s then PyRat.mk' (m : Int) ((10 : Int) ^ e) else ⟨(m : Int) * (10 : Int) ^ e, 1⟩⟩

/-- Addition of the modelled floats. -/
def PyRat.add (a b : PyRat) : PyRat :=
  PyRat.mk' (a.num * (b.den : Int) + b.num * (a.den : Int)) ((a.den : Int) * (b.den : Int))

/-- Multiplication of the modelled floats. -/
def PyRat.mul (a b : PyRat) : PyRat :=
  PyRat.mk' (a.num * b.num) ((a.den : Int) * (b.den : Int))

/-- True division of the modelled floats (total here; every division in the
embedded code has a provably nonzero divisor). -/
def PyRat.div (a b : PyRat) : PyRat :=
  PyRat.mk' (a.num * (b.den : Int)) ((a.den : Int) * b.num)

/-- Negation of the modelled floats. -/
def PyRat.neg (a : PyRat) : PyRat := ⟨-a.num, a.den⟩

instance : Add PyRat := ⟨PyRat.add⟩

instance : Mul PyRat := ⟨PyRat.mul⟩

instance : Div PyRat := ⟨PyRat.div⟩

instance : Neg PyRat := ⟨PyRat.neg⟩

/-- Value order on the modelled floats, by cross multiplication (the
denominators produced by `PyRat.mk'` are positive). -/
def PyRat.le (a b : PyRat) : Prop := a.num * (b.den : Int) ≤ b.num * (a.den : Int)

/-- Strict value order on the modelled floats. -/
def PyRat.lt (a b : PyRat) : Prop := a.num * (b.den : Int) < b.num * (a.den : Int)

instance : LE PyRat := ⟨PyRat.le⟩

instance : LT PyRat := ⟨PyRat.lt⟩

instance (a b : PyRat) : Decidable (a ≤ b) :=
  inferInstanceAs (Decidable (a.num * (b.den : Int) ≤ b.num * (a.den : Int)))

instance (a b : PyRat) : Decidable (a < b) :=
  inferInstanceAs (Decidable (a.num * (b.den : Int) < b.num * (a.den : Int)))

/-- The order on modelled floats is total (needed to reason about the
clamping `min`/`max` combinators). -/
theorem PyRat.le_total (a b : PyRat) : a ≤ b ∨ b ≤ a :=
  Int.le_total (a.num * (b.den : Int)) (b.num * (a.den : Int))

/-- Python built-in `max` on two numbers (`max(x, y)`). -/
def pymax (a b : PyRat) : PyRat := if b ≤ a then a else b

/-- Python built-in `min` on two numbers (`min(x, y)`). -/
def pymin (a b : PyRat) : PyRat := if a ≤ b then a else b

/-- Python `int(q)` truncation of a float toward zero. -/
def ratTruncToZero (q : PyRat) : Int := q.num.tdiv (q.den : Int)

/-- ASCII lowercasing of one character (Python `str.lower` restricted to
ASCII, which is all the category keys use). -/
def lowerChar (c : Char) : Char :=
  if 65 <= c.toNat && c.toNat <= 90 then Char.ofNat (c.toNat + 32) else c

/-- Python `s.lower()` (ASCII). Implemented over the character list so that
it is kernel-computable. -/
def strLower (s : String) : String := String.mk (s.data.map lowerChar)

/-- Python `s.strip()`: remove leading and trailing whitespace. -/
def strTrim (s : String) : String :=
  String.mk (((s.data.dropWhile Char.isWhitespace).reverse.dropWhile Char.isWhitespace).reverse)

/-- Deterministic rendering of a modelled float, standing in for Python's
decimal float formatting (only determinism matters to the claims). -/
def ratStr (q : PyRat) : String := toString q.num ++ "/" ++ toString q.den

/-- Dynamic Python values as they flow through the application: the risk
calculator receives plain dicts whose fields may hold data of any shape.
CPython floats are modelled as exact rationals and datetimes as ticks. -/
inductive PyVal where
  | none
  | bool (b : Bool)
  | int (n : Int)
  | float (q : PyRat)
  | str (s : String)
  | list (elems : List PyVal)
  | dict (entries : List (String × PyVal))
  | time (t : Nat)

/-- Python truthiness, as used by `if not smoking_status:` style guards. -/
def pyTruthy : PyVal → Bool
  | .none => false
  | .bool b => b
  | .int n => n != 0
  | .float q => q.num != 0
  | .str s => s != ""
  | .list l => !l.isEmpty
  | .dict l => !l.isEmpty
  | .time _ => true

/-- Numeric value of a decimal digit character. -/
def charDigit (c : Char) : Nat := c.toNat - 48

/-- Value of a digit string read in base 10. -/
def digitsVal (cs : List Char) : Nat := cs.foldl (fun a c => a * 10 + charDigit c) 0

/-- Parse a nonempty run of decimal digits. -/
def parseDigits (cs : List Char) : Option Nat :=
  if cs ≠ [] ∧ cs.all Char.isDigit then some (digitsVal cs) else Option.none

/-- Strip one optional leading sign, returning the sign and the rest. -/
def splitSign : List Char → Int × List Char
  | '+' :: rest => (1, rest)
  | '-' :: rest => (-1, rest)
  | cs => (1, cs)

/-- Raise a modelled float to a natural power (used for decimal scaling). -/
instance : Pow PyRat Nat := ⟨fun q n => Nat.rec (1 : PyRat) (fun _ acc => acc * q) n⟩

/-- Parse the mantissa of a Python float literal: digits with an optional
decimal point, at least one digit present overall. -/
def parseMantissa (cs : List Char) : Option PyRat :=
  match cs.splitOn '.' with
  | [ip] => (parseDigits ip).map (fun n => (n : PyRat))
  | [ip, fp] =>
      if (ip ≠ [] ∨ fp ≠ []) ∧ ip.all Char.isDigit ∧ fp.all Char.isDigit then
        some ((digitsVal ip : PyRat) + (digitsVal fp : PyRat) / ((10 : PyRat) ^ fp.length))
      else Option.none
  | _ => Option.none

/-- Python `float(s)` on a string: strip whitespace, optional sign, decimal
mantissa, optional exponent. Modelled over exact rationals; the non-finite
literals (`inf`, `nan`) are outside the model. -/
def parseFloatStr (s : String) : Except Unit PyRat :=
  let cs := (strLower (strTrim s)).data
  let sb := splitSign cs
  match sb.2.splitOn 'e' with
  | [m] =>
      match parseMantissa m with
      | some q => .ok ((sb.1 : PyRat) * q)
      | Option.none => .error ()
  | [m, e] =>
      match parseMantissa m, (splitSign e).1, parseDigits (splitSign e).2 with
      | some q, sg, some ex =>
          .ok (if sg < 0 then (sb.1 : PyRat) * q / ((10 : PyRat) ^ ex)
               else (sb.1 : PyRat) * q * ((10 : PyRat) ^ ex))
      | _, _, _ => .error ()
  | _ => .error ()

/-- Python `int(s)` on a string: strip whitespace, optional sign, digits. -/
def parseIntStr (s : String) : Except Unit Int :=
  let sb := splitSign (strTrim s).data
  match parseDigits sb.2 with
  | some n => .ok (sb.1 * n)
  | Option.none => .error ()

/-- Python `float(x)`: accepts floats, ints, bools and numeric strings;
raises (the error case) on anything else. -/
def pyFloat : PyVal → Except Unit PyRat
  | .float q => .ok q
  | .int n => .ok (n : PyRat)
  | .bool b => .ok (if b then 1 else 0)
  | .str s => parseFloatStr s
  | _ => .error ()

/-- Python `int(x)`: accepts ints, floats (truncated toward zero), bools and
integer strings; raises on anything else. -/
def pyInt : PyVal → Except Unit Int
  | .int n => .ok n
  | .float q => .ok (ratTruncToZero q)
  | .bool b => .ok (if b then 1 else 0)
  | .str s => parseIntStr s
  | _ => .error ()

mutual

/-- Python `str(x)`. String content of numeric and nested values is an
abstract deterministic rendering; only determinism and stringhood matter to
the claims below. -/
def pyStr : PyVal → String
  | .none => "None"
  | .bool b => if b then "True" else "False"
  | .int n => toString n
  | .float q => ratStr q
  | .str s => s
  | .list l => "[" ++ String.intercalate ", " (pyStrList l) ++ "]"
  | .dict l => "\x7b" ++ String.intercalate ", " (pyStrEntries l) ++ "\x7d"
  | .time t => toString t

/-- Renders the elements of a Python list. -/
def pyStrList : List PyVal → List String
  | [] => []
  | v :: vs => pyStr v :: pyStrList vs

/-- Renders the entries of a Python dict. -/
def pyStrEntries : List (String × PyVal) → List String
  | [] => []
  | kv :: kvs => (kv.1 ++ ": " ++ pyStr kv.2) :: pyStrEntries kvs

end

/-- Python `x.lower()`: only strings have the attribute; anything else is an
AttributeError. ASCII lowercasing. -/
def pyLower : PyVal → Except Unit String
  | .str s => .ok (strLower s)
  | _ => .error ()

/-- Python `x.lower().strip()` as applied to condition names. -/
def pyLowerStrip : PyVal → Except Unit String
  | .str s => .ok (strTrim (strLower s))
  | _ => .error ()

/-- Python iteration `for x in v`: lists yield their elements, strings their
characters, dicts their keys; other values raise TypeError. -/
def pyIter : PyVal → Except Unit (List PyVal)
  | .list l => .ok l
  | .str s => .ok (s.data.map (fun c => .str (String.singleton c)))
  | .dict l => .ok (l.map (fun kv => .str kv.1))
  | _ => .error ()

/-- Python `v.get(key, default)`: only dicts have `.get`; on any other value
the attribute access raises AttributeError. -/
def pyGet (v : PyVal) (key : String) (default : PyVal) : Except Unit PyVal :=
  match v with
  | .dict l => .ok (((l.find? (fun kv => kv.1 == key)).map Prod.snd).getD default)
  | _ => .error ()

/-- `d.get(key, default)` on a value statically known to be a dict (the
top-level `user_data` argument and the sheet entries). -/
def dictGetD (d : List (String × PyVal)) (key : String) (default : PyVal) : PyVal :=
  ((d.find? (fun kv => kv.1 == key)).map Prod.snd).getD default

/-! ## Risk Scoring Engine (app/services/risk_calculator.py) -/

/-- INSURANCE_WEIGHTS age entry from RiskCalculator. -/
def INSURANCE_WEIGHTS_age : PyRat := 0.2

/-- INSURANCE_WEIGHTS bmi entry. -/
def INSURANCE_WEIGHTS_bmi : PyRat := 0.15

/-- INSURANCE_WEIGHTS smoking entry. -/
def INSURANCE_WEIGHTS_smoking : PyRat := 0.25

/-- INSURANCE_WEIGHTS exercise entry. -/
def INSURANCE_WEIGHTS_exercise : PyRat := 0.15

/-- INSURANCE_WEIGHTS medical_history entry. -/
def INSURANCE_WEIGHTS_medical_history : PyRat := 0.25

/-- DIABETES_WEIGHTS age entry. -/
def DIABETES_WEIGHTS_age : PyRat := 0.15

/-- DIABETES_WEIGHTS bmi entry. -/
def DIABETES_WEIGHTS_bmi : PyRat := 0.2

/-- DIABETES_WEIGHTS family_history entry. -/
def DIABETES_WEIGHTS_family_history : PyRat := 0.25

/-- DIABETES_WEIGHTS exercise entry. -/
def DIABETES_WEIGHTS_exercise : PyRat := 0.2

/-- DIABETES_WEIGHTS diet entry. -/
def DIABETES_WEIGHTS_diet : PyRat := 0.2

/-- `_calculate_age_risk(age, diabetes_context)`. -/
def calculateAgeRisk (age : Int) (diabetes_context : Bool) : PyRat :=
  if diabetes_context then
    if age > 65 then 1.0 else if age > 45 then 0.7 else if age > 35 then 0.4 else 0.2
  else
    if age > 70 then 1.0 else if age > 50 then 0.7 else if age > 30 then 0.4 else 0.2

/-- `_calculate_bmi_risk(height_m, weight_kg)`: the `height_m <= 0` guard
makes the inner division total, so the inner try/except never fires. -/
def calculateBmiRisk (height_m weight_kg : PyRat) : PyRat :=
  if height_m ≤ 0 then 0.5
  else
    let bmi := weight_kg / (height_m * height_m)
    if bmi > 35 then 1.0 else if bmi > 30 then 0.8 else if bmi > 25 then 0.6
    else if bmi < 18.5 then 0.4 else 0.2

/-- Lookup in one of the category maps with the 0.5 default, modelling
`some_map.get(key, 0.5)`. -/
def tableGetD (table : List (String × PyRat)) (key : String) (default : PyRat) : PyRat :=
  ((table.find? (fun kv => kv.1 == key)).map Prod.snd).getD default

/-- The `status_map` of `_calculate_smoking_risk`. -/
def status_map : List (String × PyRat) := [("current", 1.0), ("former", 0.6), ("never", 0.1)]

/-- The `frequency_map` of `_calculate_exercise_risk`. -/
def frequency_map : List (String × PyRat) :=
  [("never", 1.0), ("rarely", 0.8), ("sometimes", 0.6), ("regularly", 0.3), ("daily", 0.1)]

/-- The `diet_map` of `_calculate_diet_risk`. -/
def diet_map : List (String × PyRat) :=
  [("unhealthy", 1.0), ("average", 0.5), ("healthy", 0.2), ("very_healthy", 0.1)]

/-- Common shape of the three category risk functions: a falsy argument
returns 0.5; otherwise `.lower()` is applied (raising on non-strings) and
the lowered key is looked up in the map with default 0.5. -/
def categoryRisk (table : List (String × PyRat)) (v : PyVal) : Except Unit PyRat :=
  if pyTruthy v = false then .ok 0.5
  else
    match pyLower v with
    | .ok s => .ok (tableGetD table s 0.5)
    | .error e => .error e

/-- `_calculate_smoking_risk`. -/
def calculateSmokingRisk (smoking_status : PyVal) : Except Unit PyRat :=
  categoryRisk status_map smoking_status

/-- `_calculate_exercise_risk`. -/
def calculateExerciseRisk (exercise_frequency : PyVal) : Except Unit PyRat :=
  categoryRisk frequency_map exercise_frequency

/-- `_calculate_diet_risk`. -/
def calculateDietRisk (diet_type : PyVal) : Except Unit PyRat :=
  categoryRisk diet_map diet_type

/-- The `high_risk_conditions` list of `_calculate_medical_risk`. -/
def highRiskConditions : List String := ["heart disease", "diabetes", "cancer"]

/-- The `medium_risk_conditions` list of `_calculate_medical_risk`. -/
def mediumRiskConditions : List String := ["hypertension", "high cholesterol"]

/-- `_calculate_medical_risk(medical_history)`: base 0.3, per-occurrence
increments for matched conditions, capped at 1.0. The argument is dynamic:
`.get` raises when it is not a dict, and iteration raises on non-iterables
or non-string elements; such errors propagate to the caller's handler. -/
def calculateMedicalRisk (medical_history : PyVal) : Except Unit PyRat := do
  let conditions ← pyGet medical_history "conditions" (.list [])
  let items ← pyIter conditions
  let risk ← items.foldlM
    (fun r c => do
      let s ← pyLowerStrip c
      pure (if highRiskConditions.contains s then r + 0.3
            else if mediumRiskConditions.contains s then r + 0.15 else r))
    (0.3 : PyRat)
  pure (pymin risk 1.0)

/-- `_calculate_family_risk(conditions)`: base 0.2, +0.4 for diabetes and
+0.2 for heart disease among the lowered, stripped condition names. -/
def calculateFamilyRisk (conditions : PyVal) : Except Unit PyRat := do
  let items ← pyIter conditions
  let lowered ← items.mapM pyLowerStrip
  let risk1 := if lowered.contains "diabetes" then (0.2 : PyRat) + 0.4 else 0.2
  let risk2 := if lowered.contains "heart disease" then risk1 + 0.2 else risk1
  pure (pymin risk2 1.0)

/-- The `lifestyle_factors` value both calculators read from user_data. -/
def lifestyleOf (user_data : List (String × PyVal)) : PyVal :=
  dictGetD user_data "lifestyle_factors" (.dict [])

/-- The smoking sub-score exactly as computed inside
`calculate_insurance_risk`: `lifestyle.get('smoking_status')` followed by
`_calculate_smoking_risk`. -/
def smokingSubscore (user_data : List (String × PyVal)) : Except Unit PyRat := do
  let v ← pyGet (lifestyleOf user_data) "smoking_status" .none
  calculateSmokingRisk v

/-- The exercise sub-score as computed inside both calculators. -/
def exerciseSubscore (user_data : List (String × PyVal)) : Except Unit PyRat := do
  let v ← pyGet (lifestyleOf user_data) "exercise_frequency" .none
  calculateExerciseRisk v

/-- The diet sub-score as computed inside `calculate_diabetes_risk`. -/
def dietSubscore (user_data : List (String × PyVal)) : Except Unit PyRat := do
  let v ← pyGet (lifestyleOf user_data) "diet_type" .none
  calculateDietRisk v

/-- The try-block body of `calculate_insurance_risk`; the error case is any
Python exception raised inside it. -/
def insuranceRiskExc (user_data : List (String × PyVal)) : Except Unit PyRat := do
  let age ← pyInt (dictGetD user_data "age" (.int 0))
  let age_risk := calculateAgeRisk age false
  let heightv ← pyFloat (dictGetD user_data "height" (.int 0))
  let height_m := heightv / 100
  let weight_kg ← pyFloat (dictGetD user_data "weight" (.int 0))
  let bmi_risk := calculateBmiRisk height_m weight_kg
  let smoking_risk ← smokingSubscore user_data
  let exercise_risk ← exerciseSubscore user_data
  let medical_risk ← calculateMedicalRisk (dictGetD user_data "medical_history" (.dict []))
  let risk_score :=
    age_risk * INSURANCE_WEIGHTS_age + bmi_risk * INSURANCE_WEIGHTS_bmi +
    smoking_risk * INSURANCE_WEIGHTS_smoking + exercise_risk * INSURANCE_WEIGHTS_exercise +
    medical_risk * INSURANCE_WEIGHTS_medical_history
  pure (pymin (pymax risk_score 0) 1)

/-- `calculate_insurance_risk(user_data)`: the try-body with every exception
absorbed to the 0.5 default score. -/
def calculate_insurance_risk (user_data : List (String × PyVal)) : PyRat :=
  match insuranceRiskExc user_data with
  | .ok q => q
  | .error _ => 0.5

/-- The try-block body of `calculate_diabetes_risk`. -/
def diabetesRiskExc (user_data : List (String × PyVal)) : Except Unit PyRat := do
  let age ← pyInt (dictGetD user_data "age" (.int 0))
  let age_risk := calculateAgeRisk age true
  let heightv ← pyFloat (dictGetD user_data "height" (.int 0))
  let height_m := heightv / 100
  let weight_kg ← pyFloat (dictGetD user_data "weight" (.int 0))
  let bmi_risk := calculateBmiRisk height_m weight_kg
  let exercise_risk ← exerciseSubscore user_data
  let diet_risk ← dietSubscore user_data
  let medical := dictGetD user_data "medical_history" (.dict [])
  let conditions ← pyGet medical "conditions" (.list [])
  let family_risk ← calculateFamilyRisk conditions
  let risk_score :=
    age_risk * DIABETES_WEIGHTS_age + bmi_risk * DIABETES_WEIGHTS_bmi +
    family_risk * DIABETES_WEIGHTS_family_history + exercise_risk * DIABETES_WEIGHTS_exercise +
    diet_risk * DIABETES_WEIGHTS_diet
  pure (pymin (pymax risk_score 0) 1)

/-- `calculate_diabetes_risk(user_data)`. -/
def calculate_diabetes_risk (user_data : List (String × PyVal)) : PyRat :=
  match diabetesRiskExc user_data with
  | .ok q => q
  | .error _ => 0.5

/-! ## General lemmas about the embedded calculator -/

/-- Inversion for a successful bind in the exception monad. -/
theorem exceptBindOk {ε α β : Type} {x : Except ε α} {f : α → Except ε β} {b : β}
    (h : x >>= f = .ok b) : ∃ a, x = .ok a ∧ f a = .ok b := by
  cases x with
  | error e => simp [Bind.bind, Except.bind] at h
  | ok a => exact ⟨a, rfl, by simpa [Bind.bind, Except.bind] using h⟩

/-- The clamp `min(max(s, 0), 1)` always lands in the unit interval. -/
theorem clamp_unit_bounds (s : PyRat) :
    (0 : PyRat) ≤ pymin (pymax s 0) 1 ∧ pymin (pymax s 0) 1 ≤ 1 := by
  unfold pymin pymax
  by_cases h1 : (0 : PyRat) ≤ s
  · rw [if_pos h1]
    by_cases h2 : s ≤ 1
    · rw [if_pos h2]; exact ⟨h1, h2⟩
    · rw [if_neg h2]; exact ⟨by decide, by decide⟩
  · rw [if_neg h1, if_pos (by decide : (0 : PyRat) ≤ 1)]
    exact ⟨by decide, by decide⟩

/-- A successful run of the insurance try-block returns a clamped score. -/
theorem insuranceRiskExc_ok_bounds {d : List (String × PyVal)} {q : PyRat}
    (h : insuranceRiskExc d = .ok q) : (0 : PyRat) ≤ q ∧ q ≤ 1 := by
  unfold insuranceRiskExc at h
  obtain ⟨age, -, h⟩ := exceptBindOk h
  obtain ⟨hv, -, h⟩ := exceptBindOk h
  obtain ⟨w, -, h⟩ := exceptBindOk h
  obtain ⟨sr, -, h⟩ := exceptBindOk h
  obtain ⟨er, -, h⟩ := exceptBindOk h
  obtain ⟨mr, -, h⟩ := exceptBindOk h
  simp only [Pure.pure, Except.pure, Except.ok.injEq] at h
  rw [← h]
  exact clamp_unit_bounds _

/-- A successful run of the diabetes try-block returns a clamped score. -/
theorem diabetesRiskExc_ok_bounds {d : List (String × PyVal)} {q : PyRat}
    (h : diabetesRiskExc d = .ok q) : (0 : PyRat) ≤ q ∧ q ≤ 1 := by
  unfold diabetesRiskExc at h
  obtain ⟨age, -, h⟩ := exceptBindOk h
  obtain ⟨hv, -, h⟩ := exceptBindOk h
  obtain ⟨w, -, h⟩ := exceptBindOk h
  obtain ⟨er, -, h⟩ := exceptBindOk h
  obtain ⟨dr, -, h⟩ := exceptBindOk h
  obtain ⟨cond, -, h⟩ := exceptBindOk h
  obtain ⟨fr, -, h⟩ := exceptBindOk h
  simp only [Pure.pure, Except.pure, Except.ok.injEq] at h
  rw [← h]
  exact clamp_unit_bounds _

/-- C1: for every input record, however adversarial or out of range its
field values, `calculate_insurance_risk` and `calculate_diabetes_risk` both
return a score in the closed interval [0, 1]: a successful try-block ends in
the clamp `min(max(s, 0), 1)` and every exception is absorbed to 0.5. -/
theorem risk_scores_unit_interval (user_data : List (String × PyVal)) :
    (0 : PyRat) ≤ calculate_insurance_risk user_data ∧
    calculate_insurance_risk user_data ≤ 1 ∧
    (0 : PyRat) ≤ calculate_diabetes_risk user_data ∧
    calculate_diabetes_risk user_data ≤ 1 := by
  refine ⟨?_, ?_, ?_, ?_⟩
  · unfold calculate_insurance_risk
    split
    next q hq => exact (insuranceRiskExc_ok_bounds hq).1
    next e hq => decide
  · unfold calculate_insurance_risk
    split
    next q hq => exact (insuranceRiskExc_ok_bounds hq).2
    next e hq => decide
  · unfold calculate_diabetes_risk
    split
    next q hq => exact (diabetesRiskExc_ok_bounds hq).1
    next e hq => decide
  · unfold calculate_diabetes_risk
    split
    next q hq => exact (diabetesRiskExc_ok_bounds hq).2
    next e hq => decide

/-- The worked example record of the specification, keyed exactly as the
calculator expects. -/
def exampleRecord : List (String × PyVal) :=
  [("age", .int 30), ("height", .float 180.5), ("weight", .float 75),
   ("lifestyle_factors", .dict [("smoking_status", .str "never"),
                                ("exercise_frequency", .str "daily")]),
   ("medical_history", .dict [("conditions", .list [.str "none"])])]

/-- C5: on the record age=30, height=180.5, weight=75, smoking never,
exercise daily, conditions [none], the insurance score is exactly 0.185,
with sub-scores age 0.2, bmi 0.2, smoking 0.1, exercise 0.1, medical 0.3
under the weights 0.2/0.15/0.25/0.15/0.25. -/
theorem insurance_risk_worked_example :
    calculate_insurance_risk exampleRecord = 0.185 ∧
    calculateAgeRisk 30 false = 0.2 ∧
    calculateBmiRisk (180.5 / 100) 75 = 0.2 ∧
    smokingSubscore exampleRecord = .ok 0.1 ∧
    exerciseSubscore exampleRecord = .ok 0.1 ∧
    calculateMedicalRisk (dictGetD exampleRecord "medical_history" (.dict [])) = .ok 0.3 ∧
    INSURANCE_WEIGHTS_age = 0.2 ∧ INSURANCE_WEIGHTS_bmi = 0.15 ∧
    INSURANCE_WEIGHTS_smoking = 0.25 ∧ INSURANCE_WEIGHTS_exercise = 0.15 ∧
    INSURANCE_WEIGHTS_medical_history = 0.25 :=
  ⟨by decide, by decide, by decide, rfl, rfl, rfl, by decide, by decide, by decide,
   by decide, by decide⟩

/-- The category lookup applied to a string never raises and looks the
lowered key up with default 0.5 (empty strings short-circuit as falsy). -/
theorem categoryRisk_str (table : List (String × PyRat)) (s : String) :
    categoryRisk table (.str s) =
      .ok (if s = "" then 0.5 else tableGetD table (strLower s) 0.5) := by
  by_cases h : s = "" <;> simp [categoryRisk, pyTruthy, pyLower, h]

/-- A key absent from a category map falls back to the default. -/
theorem tableGetD_of_not_mem {table : List (String × PyRat)} {key : String}
    (h : ∀ p ∈ table, p.1 ≠ key) (d : PyRat) : tableGetD table key d = d := by
  unfold tableGetD
  have hf : table.find? (fun kv => kv.1 == key) = Option.none :=
    List.find?_eq_none.mpr (fun p hp => by simpa using h p hp)
  rw [hf]
  rfl

/-- Category lookup depends only on the lowered key (case-insensitivity),
for maps without an empty key. -/
theorem categoryRisk_lower_congr (table : List (String × PyRat))
    (hkeys : ∀ p ∈ table, p.1 ≠ "") {s t : String}
    (h : strLower s = strLower t) :
    categoryRisk table (.str s) = categoryRisk table (.str t) := by
  rw [categoryRisk_str, categoryRisk_str]
  by_cases hs : s = "" <;> by_cases ht : t = ""
  · simp [hs, ht]
  · subst hs
    have ht2 : strLower t = "" := by rw [← h]; rfl
    rw [if_pos rfl, if_neg ht, ht2, tableGetD_of_not_mem hkeys]
  · subst ht
    have hs2 : strLower s = "" := by rw [h]; rfl
    rw [if_pos rfl, if_neg hs, hs2, tableGetD_of_not_mem hkeys]
  · rw [if_neg hs, if_neg ht, h]

/-- A key whose lowering is outside the map's key set yields exactly 0.5. -/
theorem categoryRisk_of_unknown (table : List (String × PyRat)) {s : String}
    (h : ∀ p ∈ table, p.1 ≠ strLower s) :
    categoryRisk table (.str s) = .ok 0.5 := by
  rw [categoryRisk_str]
  by_cases hs : s = ""
  · rw [if_pos hs]
  · rw [if_neg hs, tableGetD_of_not_mem h]

/-- C9: for string-valued smoking-status, exercise-frequency and diet-type
inputs, the three category lookups are case-insensitive (they depend only on
the ASCII-lowered key), never raise, and yield exactly 0.5 for any
unrecognized lowered key and for the missing value None. -/
theorem category_lookup_properties (s t : String) :
    (strLower s = strLower t →
      (calculateSmokingRisk (.str s) = calculateSmokingRisk (.str t) ∧
       calculateExerciseRisk (.str s) = calculateExerciseRisk (.str t) ∧
       calculateDietRisk (.str s) = calculateDietRisk (.str t))) ∧
    ((calculateSmokingRisk (.str s)).isOk = true ∧
     (calculateExerciseRisk (.str s)).isOk = true ∧
     (calculateDietRisk (.str s)).isOk = true) ∧
    (strLower s ∉ (["current", "former", "never"] : List String) →
      calculateSmokingRisk (.str s) = .ok 0.5) ∧
    (strLower s ∉ (["never", "rarely", "sometimes", "regularly", "daily"] : List String) →
      calculateExerciseRisk (.str s) = .ok 0.5) ∧
    (strLower s ∉ (["unhealthy", "average", "healthy", "very_healthy"] : List String) →
      calculateDietRisk (.str s) = .ok 0.5) ∧
    (calculateSmokingRisk PyVal.none = .ok 0.5 ∧
     calculateExerciseRisk PyVal.none = .ok 0.5 ∧
     calculateDietRisk PyVal.none = .ok 0.5) := by
  refine ⟨?_, ?_, ?_, ?_, ?_, rfl, rfl, rfl⟩
  · intro h
    refine ⟨?_, ?_, ?_⟩
    · exact categoryRisk_lower_congr status_map (by decide) h
    · exact categoryRisk_lower_congr frequency_map (by decide) h
    · exact categoryRisk_lower_congr diet_map (by decide) h
  · refine ⟨?_, ?_, ?_⟩
    · show (categoryRisk status_map (.str s)).isOk = true
      rw [categoryRisk_str]; rfl
    · show (categoryRisk frequency_map (.str s)).isOk = true
      rw [categoryRisk_str]; rfl
    · show (categoryRisk diet_map (.str s)).isOk = true
      rw [categoryRisk_str]; rfl
  · intro hmem
    refine categoryRisk_of_unknown status_map ?_
    intro p hp he
    apply hmem
    rw [← he]
    simp only [status_map, List.mem_cons, List.not_mem_nil, or_false] at hp
    rcases hp with h1 | h1 | h1 <;> (subst h1; simp)
  · intro hmem
    refine categoryRisk_of_unknown frequency_map ?_
    intro p hp he
    apply hmem
    rw [← he]
    simp only [frequency_map, List.mem_cons, List.not_mem_nil, or_false] at hp
    rcases hp with h1 | h1 | h1 | h1 | h1 <;> (subst h1; simp)
  · intro hmem
    refine categoryRisk_of_unknown diet_map ?_
    intro p hp he
    apply hmem
    rw [← he]
    simp only [diet_map, List.mem_cons, List.not_mem_nil, or_false] at hp
    rcases hp with h1 | h1 | h1 | h1 <;> (subst h1; simp)

/-- Witness for C9 at concrete inputs: mixed-case NeVeR agrees with never,
and the unrecognized category Vegan yields exactly 0.5. -/
theorem category_lookup_properties_witness :
    (strLower "NeVeR" = strLower "never") ∧
    calculateSmokingRisk (.str "NeVeR") = calculateSmokingRisk (.str "never") ∧
    (strLower "Vegan" ∉ (["unhealthy", "average", "healthy", "very_healthy"] : List String)) ∧
    calculateDietRisk (.str "Vegan") = .ok 0.5 :=
  ⟨by decide,
   ((category_lookup_properties "NeVeR" "never").1 (by decide)).1,
   by decide,
   (category_lookup_properties "Vegan" "Vegan").2.2.2.2.1 (by decide)⟩

/-! ## API schemas (app/schemas.py) and record store (app/models.py) -/

/-- schemas.LifestyleFactors: the only lifestyle keys the API accepts. -/
structure LifestyleFactors where
  exercise : Option String
  diet : Option String

/-- schemas.MedicalHistory. -/
structure MedicalHistory where
  conditions : List String
  medications : List String

/-- schemas.UserDataCreate (= UserDataBase): the create-record input shape.
It has no risk-score fields; datetimes are modelled as ticks. -/
structure UserDataCreate where
  name : String
  age : Int
  gender : String
  email : String
  phone : Option String
  height : Option PyRat
  weight : Option PyRat
  bmi : Option PyRat
  lifestyle_score : PyRat
  medical_history : Option MedicalHistory
  lifestyle_factors : Option LifestyleFactors
  is_active : Bool
  timestamp : Nat
  created_at : Nat
  updated_at : Nat

/-- An optional string as a Python value (None or str). -/
def optStrVal : Option String → PyVal
  | some s => .str s
  | Option.none => .none

/-- An optional number as a Python value (None or float). -/
def optRatVal : Option PyRat → PyVal
  | some q => .float q
  | Option.none => .none

/-- pydantic `.dict()` of a MedicalHistory sub-model. -/
def MedicalHistory.toVal (m : MedicalHistory) : PyVal :=
  .dict [("conditions", .list (m.conditions.map PyVal.str)),
         ("medications", .list (m.medications.map PyVal.str))]

/-- pydantic `.dict()` of a LifestyleFactors sub-model: exactly the two
schema keys exercise and diet. -/
def LifestyleFactors.toVal (lf : LifestyleFactors) : PyVal :=
  .dict [("exercise", optStrVal lf.exercise), ("diet", optStrVal lf.diet)]

/-- Optional MedicalHistory as a Python value. -/
def optMedVal : Option MedicalHistory → PyVal
  | some m => m.toVal
  | Option.none => .none

/-- Optional LifestyleFactors as a Python value. -/
def optLifeVal : Option LifestyleFactors → PyVal
  | some lf => lf.toVal
  | Option.none => .none

/-- `user_data.dict()` as passed to the risk calculator by the POST /user/
and POST /risk_scores/ handlers. -/
def UserDataCreate.toDict (u : UserDataCreate) : List (String × PyVal) :=
  [("name", .str u.name), ("age", .int u.age), ("gender", .str u.gender),
   ("email", .str u.email), ("phone", optStrVal u.phone),
   ("height", optRatVal u.height), ("weight", optRatVal u.weight),
   ("bmi", optRatVal u.bmi), ("lifestyle_score", .float u.lifestyle_score),
   ("medical_history", optMedVal u.medical_history),
   ("lifestyle_factors", optLifeVal u.lifestyle_factors),
   ("is_active", .bool u.is_active), ("timestamp", .time u.timestamp),
   ("created_at", .time u.created_at), ("updated_at", .time u.updated_at)]

/-- A row of the user_data table (models.UserData). The JSON columns hold
whatever Python value was assigned (a dict via the API, a str via sync). -/
structure UserRow where
  id : Nat
  timestamp : Nat
  name : String
  age : Int
  gender : String
  email : String
  phone : Option String
  height : Option PyRat
  weight : Option PyRat
  bmi : Option PyRat
  lifestyle_score : PyRat
  insurance_risk_score : PyRat
  diabetes_risk_score : PyRat
  medical_history : PyVal
  lifestyle_factors : PyVal
  is_active : Bool
  created_at : Nat
  updated_at : Nat

/-- A row of the health_activities table (models.HealthActivity). -/
structure ActivityRow where
  id : Nat
  user_id : Nat
  activity_type : String
  timestamp : Nat
  duration : Int
  points_earned : Int
  details : PyVal

/-- A row of the risk_assessment_logs table (models.RiskAssessmentLog),
which doubles as the SyncRun audit log. -/
structure SyncLogRow where
  id : Nat
  user_id : Option Nat
  assessment_type : String
  timestamp : Nat
  risk_score : Option PyRat
  factors : Option PyVal
  sync_start_time : Option Nat
  sync_end_time : Option Nat
  sync_status : String
  sync_error_message : Option String

/-- The record store owned by the application (the three tables). -/
structure DB where
  users : List UserRow
  activities : List ActivityRow
  logs : List SyncLogRow

/-- The POST /user/ handler create_user_data: compute both scores from the
submitted data, build the row (the scores are attached server-side; the
input shape has no score fields) and commit it. The unique email column is
the modelled commit failure; on failure nothing is persisted and the
handler answers with a 500 error. -/
def create_user_data (u : UserDataCreate) (db : DB) : Except String (DB × UserRow) :=
  let insurance_risk := calculate_insurance_risk u.toDict
  let diabetes_risk := calculate_diabetes_risk u.toDict
  let row : UserRow :=
    { id := db.users.length + 1, timestamp := u.timestamp, name := u.name, age := u.age,
      gender := u.gender, email := u.email, phone := u.phone, height := u.height,
      weight := u.weight, bmi := u.bmi, lifestyle_score := u.lifestyle_score,
      insurance_risk_score := insurance_risk, diabetes_risk_score := diabetes_risk,
      medical_history := optMedVal u.medical_history,
      lifestyle_factors := optLifeVal u.lifestyle_factors,
      is_active := u.is_active, created_at := u.created_at, updated_at := u.updated_at }
  if db.users.any (fun w => w.email == u.email) then
    .error "IntegrityError: UNIQUE constraint failed: user_data.email"
  else .ok ({ db with users := db.users ++ [row] }, row)

/-- The scores computed by the stateless POST /risk_scores/ handler
get_risk_scores on the same input shape. -/
def get_risk_scores (u : UserDataCreate) : PyRat × PyRat :=
  (calculate_insurance_risk u.toDict, calculate_diabetes_risk u.toDict)

/-- C2: whenever the caller-supplied lifestyle_factors dictionary consists
of the schema keys exercise and diet (any values), the smoking, exercise
and diet sub-scores that both risk calculations read are all the 0.5
missing-category default, because the calculator looks up the keys
smoking_status, exercise_frequency and diet_type, which the API dict never
contains. -/
theorem api_lifestyle_keys_never_match (u : UserDataCreate) (lf : LifestyleFactors)
    (h : u.lifestyle_factors = some lf) :
    smokingSubscore u.toDict = .ok 0.5 ∧
    exerciseSubscore u.toDict = .ok 0.5 ∧
    dietSubscore u.toDict = .ok 0.5 := by
  refine ⟨?_, ?_, ?_⟩ <;>
    simp [smokingSubscore, exerciseSubscore, dietSubscore, lifestyleOf, UserDataCreate.toDict,
          dictGetD, h, optLifeVal, LifestyleFactors.toVal, pyGet, List.find?,
          Bind.bind, Except.bind, calculateSmokingRisk, calculateExerciseRisk,
          calculateDietRisk, categoryRisk, pyTruthy]

/-- A concrete create-record input resembling the repository's test data. -/
def sampleCreate : UserDataCreate :=
  { name := "Alain Honore", age := 30, gender := "male", email := "himbaza@example.com",
    phone := some "0782179022", height := some 180.5, weight := some 75, bmi := Option.none,
    lifestyle_score := 85, medical_history := some ⟨["none"], []⟩,
    lifestyle_factors := some ⟨some "daily", some "healthy"⟩, is_active := true,
    timestamp := 0, created_at := 0, updated_at := 0 }

/-- Witness for C2 at a concrete request carrying lifestyle factors
exercise=daily, diet=healthy. -/
theorem api_lifestyle_keys_never_match_witness :
    sampleCreate.lifestyle_factors = some ⟨some "daily", some "healthy"⟩ ∧
    smokingSubscore sampleCreate.toDict = .ok 0.5 ∧
    exerciseSubscore sampleCreate.toDict = .ok 0.5 ∧
    dietSubscore sampleCreate.toDict = .ok 0.5 := by
  refine ⟨rfl, ?_⟩
  exact api_lifestyle_keys_never_match sampleCreate ⟨some "daily", some "healthy"⟩ rfl

/-- C10: every record persisted through POST /user/ carries exactly the
risk scores the calculator derives from the submitted data at write time;
the input shape itself has no risk-score fields to copy from. -/
theorem created_record_scores_derived (u : UserDataCreate) (db db2 : DB) (row : UserRow)
    (h : create_user_data u db = .ok (db2, row)) :
    row.insurance_risk_score = calculate_insurance_risk u.toDict ∧
    row.diabetes_risk_score = calculate_diabetes_risk u.toDict ∧
    db2.users = db.users ++ [row] := by
  unfold create_user_data at h
  by_cases hdup : db.users.any (fun w => w.email == u.email)
  · rw [if_pos hdup] at h
    exact absurd h (by simp)
  · rw [if_neg hdup] at h
    obtain ⟨h1, h2⟩ := by simpa using h
    subst h2
    exact ⟨rfl, rfl, by rw [← h1]⟩

/-- The empty record store. -/
def emptyDB : DB := { users := [], activities := [], logs := [] }

/-- The row that storing `sampleCreate` in an empty store produces. -/
def sampleRow : UserRow :=
  { id := 1, timestamp := 0, name := "Alain Honore", age := 30, gender := "male",
    email := "himbaza@example.com", phone := some "0782179022", height := some 180.5,
    weight := some 75, bmi := Option.none, lifestyle_score := 85,
    insurance_risk_score := 0.345, diabetes_risk_score := 0.32,
    medical_history := .dict [("conditions", .list [.str "none"]),
                              ("medications", .list [])],
    lifestyle_factors := .dict [("exercise", .str "daily"), ("diet", .str "healthy")],
    is_active := true, created_at := 0, updated_at := 0 }

/-- Witness for C10: creating `sampleCreate` in the empty store persists
`sampleRow`, whose stored scores are the calculator's outputs. -/
theorem created_record_scores_derived_witness :
    create_user_data sampleCreate emptyDB =
      .ok ({ users := [sampleRow], activities := [], logs := [] }, sampleRow) ∧
    sampleRow.insurance_risk_score = calculate_insurance_risk sampleCreate.toDict ∧
    sampleRow.diabetes_risk_score = calculate_diabetes_risk sampleCreate.toDict := by
  have h : create_user_data sampleCreate emptyDB =
      .ok ({ users := [sampleRow], activities := [], logs := [] }, sampleRow) := by rfl
  have h2 := created_record_scores_derived sampleCreate emptyDB
    { users := [sampleRow], activities := [], logs := [] } sampleRow h
  exact ⟨h, h2.1, h2.2.1⟩

/-! ## Import from the sheet gateway (sync_service.sync_from_sheets) -/

/-- The typed values produced by the field coercion of one sheet row
(processed_entry in sync_from_sheets). -/
structure CoercedEntry where
  name : String
  age : Int
  gender : String
  email : String
  phone : String
  height : PyRat
  weight : PyRat
  bmi : PyRat
  lifestyle_score : Int
  medical_history : String
  lifestyle_factors : String
  is_active : Bool

/-- Field coercion of one sheet row, exactly as the processed_entry dict is
built: `entry.get` with capitalized header keys and typed defaults,
`int(float(...))` and `float(...)` conversions (which raise on malformed
strings), `str(...)` conversions (total), and the is_active comparison
`entry.get('Is Active', '').lower() == 'true'` (which raises when the value
is not a string). A raised error aborts the whole row. -/
def coerceEntry (entry : List (String × PyVal)) : Except Unit CoercedEntry := do
  let name := pyStr (dictGetD entry "Name" (.str ""))
  let ageF ← pyFloat (dictGetD entry "Age" (.int 0))
  let age := ratTruncToZero ageF
  let gender := pyStr (dictGetD entry "Gender" (.str ""))
  let email := pyStr (dictGetD entry "Email" (.str ""))
  let phone := pyStr (dictGetD entry "Phone" (.str ""))
  let height ← pyFloat (dictGetD entry "Height (cm)" (.float 0))
  let weight ← pyFloat (dictGetD entry "Weight (kg)" (.float 0))
  let bmi ← pyFloat (dictGetD entry "BMI" (.float 0))
  let lifestyleF ← pyFloat (dictGetD entry "Lifestyle Score" (.int 0))
  let lifestyle_score := ratTruncToZero lifestyleF
  let medical_history := pyStr (dictGetD entry "Medical History" (.str ""))
  let lifestyle_factors := pyStr (dictGetD entry "Lifestyle Factors" (.str ""))
  let isActiveLower ← pyLower (dictGetD entry "Is Active" (.str ""))
  let is_active := isActiveLower == "true"
  pure { name := name, age := age, gender := gender, email := email, phone := phone,
         height := height, weight := weight, bmi := bmi,
         lifestyle_score := lifestyle_score, medical_history := medical_history,
         lifestyle_factors := lifestyle_factors, is_active := is_active }

/-- The processed_entry dict handed to both risk calculators during import:
note that medical_history and lifestyle_factors are plain strings here. -/
def CoercedEntry.toDict (ce : CoercedEntry) : List (String × PyVal) :=
  [("name", .str ce.name), ("age", .int ce.age), ("gender", .str ce.gender),
   ("email", .str ce.email), ("phone", .str ce.phone), ("height", .float ce.height),
   ("weight", .float ce.weight), ("bmi", .float ce.bmi),
   ("lifestyle_score", .int ce.lifestyle_score),
   ("medical_history", .str ce.medical_history),
   ("lifestyle_factors", .str ce.lifestyle_factors), ("is_active", .bool ce.is_active)]

/-- Rendering of a sheet entry as interpolated into the row error message. -/
def entryRepr (entry : List (String × PyVal)) : String := pyStr (.dict entry)

/-- The error string appended for a failed row, naming the row's content. -/
def mkRowError (msg : String) (entry : List (String × PyVal)) : String :=
  "Error processing entry: " ++ msg ++ ", Entry: " ++ entryRepr entry

/-- One iteration of the import loop body: coerce the row, compute both
risk scores on the coerced dict, build the UserData row stamped with the
current tick and commit it (the unique email constraint being the modelled
commit failure). Returns the committed row and the advanced clock. -/
def processRow (db : DB) (clock : Nat) (entry : List (String × PyVal)) :
    Except String (UserRow × Nat) := do
  let ce ← (coerceEntry entry).mapError
    (fun _ => "ValueError: could not convert string to float")
  let insurance_risk := calculate_insurance_risk ce.toDict
  let diabetes_risk := calculate_diabetes_risk ce.toDict
  let row : UserRow :=
    { id := db.users.length + 1, timestamp := clock, name := ce.name, age := ce.age,
      gender := ce.gender, email := ce.email, phone := some ce.phone,
      height := some ce.height, weight := some ce.weight, bmi := some ce.bmi,
      lifestyle_score := (ce.lifestyle_score : PyRat),
      insurance_risk_score := insurance_risk, diabetes_risk_score := diabetes_risk,
      medical_history := .str ce.medical_history,
      lifestyle_factors := .str ce.lifestyle_factors,
      is_active := ce.is_active, created_at := clock, updated_at := clock }
  if db.users.any (fun w => w.email == ce.email) then
    .error "IntegrityError: UNIQUE constraint failed: user_data.email"
  else pure (row, clock + 1)

/-- Result of running the import loop over the remaining entries. -/
structure LoopOut where
  db : DB
  clock : Nat
  processed : Nat
  errors : List String

/-- The for-loop of sync_from_sheets: each row is processed under
try/except; a success commits the row and increments processed, a failure
appends a row error, rolls back and continues with the next row. -/
def importLoop (db : DB) (clock : Nat) : List (List (String × PyVal)) → LoopOut
  | [] => { db := db, clock := clock, processed := 0, errors := [] }
  | entry :: rest =>
    match processRow db clock entry with
    | .ok (row, clock2) =>
        let out := importLoop { db with users := db.users ++ [row] } clock2 rest
        { out with processed := out.processed + 1 }
    | .error msg =>
        let out := importLoop db clock rest
        { out with errors := mkRowError msg entry :: out.errors }

/-- Rendering of the collected error list into the log column,
`str(errors)`. -/
def renderErrors (es : List String) : String :=
  "[" ++ String.intercalate ", " es ++ "]"

/-- Outcome of one sync_from_sheets invocation: the updated store, the
advanced clock, and the returned result dict. -/
structure ImportOutcome where
  db : DB
  clock : Nat
  status : String
  message : String
  processed : Nat
  errors : Option (List String)

/-- The in_progress SyncRun row each orchestrator operation inserts and
commits first (models.RiskAssessmentLog with the given assessment_type). -/
def startLog (db : DB) (clock : Nat) (atype : String) : SyncLogRow :=
  { id := db.logs.length + 1, user_id := Option.none, assessment_type := atype,
    timestamp := clock, risk_score := Option.none, factors := Option.none,
    sync_start_time := some clock, sync_end_time := Option.none,
    sync_status := "in_progress", sync_error_message := Option.none }

/-- sync_from_sheets: open a SyncRun log row (in_progress), fetch the
user_data range (passed in as `sheet_data`, already header-keyed by the
gateway), short-circuit on an empty sheet, run the per-row import loop, and
close the log with success when no row failed or partial_success otherwise,
serializing the error list into the log. The returned dict always carries
status success with the processed count and the error list (None if
empty). -/
def sync_from_sheets (sheet_data : List (List (String × PyVal))) (db : DB)
    (clock : Nat) : ImportOutcome :=
  let log0 : SyncLogRow := startLog db clock "sheets_to_db_sync"
  let db1 : DB := { db with logs := db.logs ++ [log0] }
  if sheet_data.isEmpty then
    let logF : SyncLogRow :=
      { log0 with
        sync_status := "success"
        sync_end_time := some (clock + 1)
        sync_error_message := some "No data found in sheets" }
    { db := { db1 with logs := db1.logs.dropLast ++ [logF] }, clock := clock + 2,
      status := "success", message := "No data found in sheets", processed := 0,
      errors := Option.none }
  else
    let out := importLoop db1 (clock + 1) sheet_data
    let logF := { log0 with
      sync_end_time := some out.clock,
      sync_status := if out.errors.isEmpty then "success" else "partial_success",
      sync_error_message :=
        if out.errors.isEmpty then Option.none else some (renderErrors out.errors) }
    { db := { out.db with logs := out.db.logs.dropLast ++ [logF] }, clock := out.clock + 1,
      status := "success",
      message := "Processed " ++ toString out.processed ++ " entries",
      processed := out.processed,
      errors := if out.errors.isEmpty then Option.none else some out.errors }

/-- On every coerced sheet row, both calculators raise internally (the
lifestyle_factors field is a plain string, so `.get` on it is an
AttributeError) and return the absorbed 0.5 default. -/
theorem coerced_scores_default (ce : CoercedEntry) :
    calculate_insurance_risk ce.toDict = 0.5 ∧ calculate_diabetes_risk ce.toDict = 0.5 :=
  ⟨rfl, rfl⟩

/-- C6: every row sync_from_sheets persists carries insurance and diabetes
scores both equal to the 0.5 sentinel: the coercion stringifies
medical_history and lifestyle_factors, so each score computation raises
internally and is absorbed to the default. -/
theorem imported_row_scores_default (db : DB) (clock : Nat)
    (entry : List (String × PyVal)) (row : UserRow) (clock2 : Nat)
    (h : processRow db clock entry = .ok (row, clock2)) :
    row.insurance_risk_score = 0.5 ∧ row.diabetes_risk_score = 0.5 := by
  unfold processRow at h
  obtain ⟨ce, -, h⟩ := exceptBindOk h
  by_cases hdup : db.users.any (fun w => w.email == ce.email)
  · rw [if_pos hdup] at h
    exact Except.noConfusion h
  · rw [if_neg hdup] at h
    simp only [Pure.pure, Except.pure, Except.ok.injEq, Prod.mk.injEq] at h
    obtain ⟨h1, -⟩ := h
    rw [← h1]
    exact coerced_scores_default ce

/-- The row that importing an empty sheet entry produces. -/
def emptyEntryRow : UserRow :=
  { id := 1, timestamp := 0, name := "", age := 0, gender := "", email := "",
    phone := some "", height := some 0, weight := some 0, bmi := some 0,
    lifestyle_score := 0, insurance_risk_score := 0.5, diabetes_risk_score := 0.5,
    medical_history := .str "", lifestyle_factors := .str "", is_active := false,
    created_at := 0, updated_at := 0 }

/-- Witness for C6: importing one concrete (empty) sheet entry persists a
row whose two scores are exactly 0.5. -/
theorem imported_row_scores_default_witness :
    processRow emptyDB 0 [] = .ok (emptyEntryRow, 1) ∧
    emptyEntryRow.insurance_risk_score = 0.5 ∧
    emptyEntryRow.diabetes_risk_score = 0.5 := by
  have h : processRow emptyDB 0 [] = .ok (emptyEntryRow, 1) := by rfl
  have h2 := imported_row_scores_default emptyDB 0 [] emptyEntryRow 1 h
  exact ⟨h, h2.1, h2.2⟩

/-- A sheet row whose Age cell does not parse as a number. -/
def badAgeEntry : List (String × PyVal) := [("Age", PyVal.str "abc")]

/-- C8 counterexample: a numeric parse failure does not default the field
to 0 — the coercion raises, the row falls to the row-level handler, nothing
is persisted, and the run records one row error instead. -/
theorem parse_failure_aborts_row :
    coerceEntry badAgeEntry = .error () ∧
    (sync_from_sheets [badAgeEntry] emptyDB 0).errors =
      some [mkRowError "ValueError: could not convert string to float" badAgeEntry] ∧
    (sync_from_sheets [badAgeEntry] emptyDB 0).processed = 0 ∧
    (sync_from_sheets [badAgeEntry] emptyDB 0).db.users = [] :=
  ⟨rfl, rfl, rfl, rfl⟩

/-- C8 as amended: fields missing from a sheet row take the typed defaults
(0 for integers, 0.0 for floats, the empty string for text, false for
is_active), a numeric parse failure raises and aborts the row (it is never
defaulted), and is_active is parsed as case-insensitive equality with
true. -/
theorem import_coercion_behaviour :
    (coerceEntry [] = .ok ⟨"", 0, "", "", "", 0, 0, 0, 0, "", "", false⟩) ∧
    (∀ s : String, parseFloatStr s = .error () →
      coerceEntry [("Age", PyVal.str s)] = .error ()) ∧
    (∀ v : String, coerceEntry [("Is Active", PyVal.str v)] =
      .ok ⟨"", 0, "", "", "", 0, 0, 0, 0, "", "", strLower v == "true"⟩) := by
  refine ⟨rfl, ?_, fun v => rfl⟩
  intro s hs
  cases h2 : coerceEntry [("Age", PyVal.str s)] with
  | error e => cases e; rfl
  | ok ce =>
      exfalso
      unfold coerceEntry at h2
      obtain ⟨q, hq, -⟩ := exceptBindOk h2
      rw [show pyFloat (dictGetD [("Age", PyVal.str s)] "Age" (.int 0)) = parseFloatStr s
            from rfl, hs] at hq
      exact Except.noConfusion hq

/-- Witness for the amended C8 at the concrete non-numeric cell abc. -/
theorem import_coercion_behaviour_witness :
    parseFloatStr "abc" = .error () ∧
    coerceEntry [("Age", PyVal.str "abc")] = .error () :=
  ⟨rfl, import_coercion_behaviour.2.1 "abc" rfl⟩

/-- Invariants of the import loop: every row either increments the
processed count or contributes one error built from that row; committed
rows extend the user table by the processed count; the loop touches no
other table. -/
theorem importLoop_spec (l : List (List (String × PyVal))) :
    ∀ (db : DB) (clock : Nat),
      (importLoop db clock l).processed + (importLoop db clock l).errors.length = l.length ∧
      (importLoop db clock l).db.users.length =
        db.users.length + (importLoop db clock l).processed ∧
      (importLoop db clock l).db.logs = db.logs ∧
      (importLoop db clock l).db.activities = db.activities ∧
      (∀ m ∈ (importLoop db clock l).errors, ∃ e ∈ l, ∃ s, m = mkRowError s e) := by
  induction l with
  | nil =>
      intro db c
      refine ⟨rfl, rfl, rfl, rfl, ?_⟩
      intro m hm
      exact absurd hm (List.not_mem_nil m)
  | cons entry rest ih =>
      intro db c
      cases hp : processRow db c entry with
      | ok rc =>
          obtain ⟨row, c2⟩ := rc
          have heq : importLoop db c (entry :: rest) =
              { importLoop { db with users := db.users ++ [row] } c2 rest with
                processed :=
                  (importLoop { db with users := db.users ++ [row] } c2 rest).processed + 1 } := by
            conv_lhs => rw [importLoop]
            rw [hp]
          obtain ⟨i1, i2, i3, i4, i5⟩ := ih { db with users := db.users ++ [row] } c2
          rw [heq]
          refine ⟨?_, ?_, i3, i4, ?_⟩
          · dsimp only
            simp only [List.length_cons]
            omega
          · dsimp only
            rw [i2]
            dsimp only
            simp only [List.length_append, List.length_cons, List.length_nil]
            omega
          · intro m hm
            obtain ⟨e, he, s, hs⟩ := i5 m hm
            exact ⟨e, List.mem_cons_of_mem entry he, s, hs⟩
      | error msg =>
          have heq : importLoop db c (entry :: rest) =
              { importLoop db c rest with
                errors := mkRowError msg entry :: (importLoop db c rest).errors } := by
            conv_lhs => rw [importLoop]
            rw [hp]
          obtain ⟨i1, i2, i3, i4, i5⟩ := ih db c
          rw [heq]
          refine ⟨?_, i2, i3, i4, ?_⟩
          · dsimp only
            simp only [List.length_cons]
            omega
          · intro m hm
            dsimp only at hm
            rcases List.mem_cons.mp hm with h1 | h1
            · exact ⟨entry, List.mem_cons_self entry rest, msg, h1⟩
            · obtain ⟨e, he, s, hs⟩ := i5 m h1
              exact ⟨e, List.mem_cons_of_mem entry he, s, hs⟩

/-- C4: when exactly one row of an import fails processing, the other n-1
rows are each persisted, the SyncRun closes as partial_success, and the run
reports exactly one error entry built from the failed row; per-row failures
never abort the batch. -/
theorem import_single_failure_partial_success
    (sheet_data : List (List (String × PyVal))) (db : DB) (clock : Nat)
    (h : ((sync_from_sheets sheet_data db clock).errors.getD []).length = 1) :
    (sync_from_sheets sheet_data db clock).processed = sheet_data.length - 1 ∧
    (sync_from_sheets sheet_data db clock).db.users.length =
      db.users.length + (sheet_data.length - 1) ∧
    (∃ lg, (sync_from_sheets sheet_data db clock).db.logs = db.logs ++ [lg] ∧
      lg.sync_status = "partial_success") ∧
    (∃ e ∈ sheet_data, ∃ s,
      (sync_from_sheets sheet_data db clock).errors = some [mkRowError s e]) := by
  simp only [sync_from_sheets] at h ⊢
  by_cases he : sheet_data.isEmpty
  · rw [if_pos he] at h
    simp at h
  · rw [if_neg he] at h ⊢
    obtain ⟨i1, i2, i3, i4, i5⟩ :=
      importLoop_spec sheet_data
        { db with logs := db.logs ++ [startLog db clock "sheets_to_db_sync"] } (clock + 1)
    dsimp only at h ⊢
    by_cases hek :
      (importLoop { db with logs := db.logs ++ [startLog db clock "sheets_to_db_sync"] }
        (clock + 1) sheet_data).errors.isEmpty
    · rw [if_pos hek] at h
      simp at h
    · rw [if_neg hek] at h
      simp only [Option.getD_some] at h
      set L := importLoop { db with logs := db.logs ++ [startLog db clock "sheets_to_db_sync"] }
        (clock + 1) sheet_data with hL
      refine ⟨?_, ?_, ?_, ?_⟩
      · omega
      · rw [i2]
        dsimp only
        omega
      · simp only [if_neg hek]
        refine ⟨{ startLog db clock "sheets_to_db_sync" with
                  sync_end_time := some L.clock
                  sync_status := "partial_success"
                  sync_error_message := some (renderErrors L.errors) }, ?_, rfl⟩
        rw [i3]
        dsimp only
        rw [List.dropLast_concat]
      · simp only [if_neg hek]
        obtain ⟨m, hm⟩ := List.length_eq_one.mp h
        obtain ⟨e, he2, s, hs⟩ := i5 m (by rw [hm]; exact List.mem_singleton.mpr rfl)
        exact ⟨e, he2, s, by rw [hm, hs]⟩

/-- Witness for C4: importing two rows whose coerced emails collide on the
unique column makes exactly the second row fail, so 1 of 2 rows persists,
exactly one error is recorded, and the run closes partial_success. -/
theorem import_single_failure_partial_success_witness :
    ((sync_from_sheets [[], []] emptyDB 0).errors.getD []).length = 1 ∧
    (sync_from_sheets [[], []] emptyDB 0).processed = 1 ∧
    (sync_from_sheets [[], []] emptyDB 0).db.users.length = 1 := by
  have h : ((sync_from_sheets [[], []] emptyDB 0).errors.getD []).length = 1 := by rfl
  have h2 := import_single_failure_partial_success [[], []] emptyDB 0 h
  exact ⟨h, h2.1, h2.2.1⟩

/-! ## Export to the sheet gateway (google_sheets.update_sheets,
sync_service.get_db_data / sync_to_sheets) and the bidirectional run -/

/-- The externally owned spreadsheet: the contents of the three configured
named ranges (RANGES in GoogleSheetsClient). -/
structure Remote where
  user_data : List (List String)
  health_activities : List (List String)
  risk_assessment_logs : List (List String)

/-- The three rectangular grids get_db_data serializes, keyed by the same
range names in dict insertion order. -/
structure SheetsData where
  user_data : List (List String)
  health_activities : List (List String)
  risk_assessment_logs : List (List String)

/-- GoogleSheetsClient.update_sheets: for each sheet name in dict order, an
empty grid is skipped (the range keeps its previous contents, it is not
cleared); a nonempty grid is written as batchClear of the declared range
followed by an update with the grid, so the range content becomes exactly
the grid. Authentication and HTTP transport are the opaque collaborator and
are modelled as succeeding. -/
def update_sheets (remote : Remote) (data : SheetsData) : Remote :=
  let r1 := if data.user_data.isEmpty then remote
            else { remote with user_data := data.user_data }
  let r2 := if data.health_activities.isEmpty then r1
            else { r1 with health_activities := data.health_activities }
  if data.risk_assessment_logs.isEmpty then r2
  else { r2 with risk_assessment_logs := data.risk_assessment_logs }

/-- Rendering of an abstract tick, standing in for strftime. -/
def timeStr (t : Nat) : String := toString t

/-- Python str of a bool. -/
def boolStr (b : Bool) : String := if b then "True" else "False"

/-- Python str of an optional int-like column (None prints as None). -/
def optNatStr : Option Nat → String
  | some n => toString n
  | Option.none => "None"

/-- Python str of a nullable float column. -/
def optRatStr : Option PyRat → String
  | some q => ratStr q
  | Option.none => "None"

/-- Python str of a nullable JSON column. -/
def optValStr : Option PyVal → String
  | some v => pyStr v
  | Option.none => "None"

/-- Python str of a nullable string column. -/
def optStrStr : Option String → String
  | some s => s
  | Option.none => "None"

/-- One exported user_data row, in get_db_data column order. -/
def userRowStrings (u : UserRow) : List String :=
  [timeStr u.timestamp, u.name, toString u.age, u.gender, u.email, optStrStr u.phone,
   optRatStr u.height, optRatStr u.weight, optRatStr u.bmi, ratStr u.lifestyle_score,
   ratStr u.insurance_risk_score, ratStr u.diabetes_risk_score, pyStr u.medical_history,
   pyStr u.lifestyle_factors, boolStr u.is_active, timeStr u.created_at,
   timeStr u.updated_at]

/-- One exported health_activities row, in get_db_data column order. -/
def activityRowStrings (a : ActivityRow) : List String :=
  [toString a.id, toString a.user_id, a.activity_type, timeStr a.timestamp,
   toString a.duration, toString a.points_earned, pyStr a.details]

/-- One exported risk_assessment_logs row, in get_db_data column order
(note: the sync status fields are not exported). -/
def logRowStrings (l : SyncLogRow) : List String :=
  [toString l.id, optNatStr l.user_id, l.assessment_type, timeStr l.timestamp,
   optRatStr l.risk_score, optValStr l.factors]

/-- get_db_data: serialize all three tables into string grids. -/
def get_db_data (db : DB) : SheetsData :=
  { user_data := db.users.map userRowStrings,
    health_activities := db.activities.map activityRowStrings,
    risk_assessment_logs := db.logs.map logRowStrings }

/-- Outcome of one sync_to_sheets invocation. -/
structure ExportOutcome where
  db : DB
  remote : Remote
  clock : Nat
  status : String
  user_rows : Nat
  activity_rows : Nat
  log_rows : Nat

/-- sync_to_sheets: insert and commit its own SyncRun row (in_progress),
read the entire database — including the audit row just inserted — through
get_db_data, push the three grids with update_sheets, then close the log
with success and return the per-table row counts. -/
def sync_to_sheets (db : DB) (remote : Remote) (clock : Nat) : ExportOutcome :=
  let log0 : SyncLogRow := startLog db clock "db_to_sheets_sync"
  let db1 : DB := { db with logs := db.logs ++ [log0] }
  let grids := get_db_data db1
  let remote2 := update_sheets remote grids
  let logF := { log0 with sync_end_time := some (clock + 1), sync_status := "success" }
  { db := { db1 with logs := db1.logs.dropLast ++ [logF] }, remote := remote2,
    clock := clock + 2, status := "success",
    user_rows := grids.user_data.length, activity_rows := grids.health_activities.length,
    log_rows := grids.risk_assessment_logs.length }

/-- The value of a phase slot in sync_data's result dict. In Python,
calling an `async def` method without `await` from a plain `def` does not
run the coroutine body: it evaluates to a coroutine object and performs no
effects. -/
inductive PhaseValue where
  | unawaitedCoroutine (name : String)
  | finished (summary : String)

/-- Result of SyncService.sync_data, the bidirectional run. -/
structure BidirOutcome where
  db : DB
  remote : Remote
  clock : Nat
  status : String
  sheets_to_db : PhaseValue
  db_to_sheets : PhaseValue

/-- SyncService.sync_data: opens the outer SyncRun, then evaluates
`self.sync_from_sheets(last_sync_time)` and `self.sync_to_sheets()`.
Both are `async def` methods and sync_data is a plain `def` that does not
await them, so Python only creates two coroutine objects: neither phase
body runs, no import or export effect reaches the database or the remote
sheet, nothing raises, and the outer SyncRun always closes success with the
two unawaited coroutines in the result dict. -/
def sync_data (db : DB) (remote : Remote) (clock : Nat) : BidirOutcome :=
  let log0 : SyncLogRow := startLog db clock "synchronization"
  let db1 : DB := { db with logs := db.logs ++ [log0] }
  let sheets_result := PhaseValue.unawaitedCoroutine "SyncService.sync_from_sheets"
  let db_result := PhaseValue.unawaitedCoroutine "SyncService.sync_to_sheets"
  let logF := { log0 with sync_end_time := some (clock + 1), sync_status := "success" }
  { db := { db1 with logs := db1.logs.dropLast ++ [logF] }, remote := remote,
    clock := clock + 2, status := "success",
    sheets_to_db := sheets_result, db_to_sheets := db_result }

/-- The user_data range after update_sheets: replaced by a nonempty grid,
kept when the grid is empty. -/
theorem update_sheets_user (remote : Remote) (d : SheetsData) :
    (update_sheets remote d).user_data =
      if d.user_data.isEmpty then remote.user_data else d.user_data := by
  unfold update_sheets
  by_cases h1 : d.user_data.isEmpty <;> by_cases h2 : d.health_activities.isEmpty <;>
    by_cases h3 : d.risk_assessment_logs.isEmpty <;> simp [h1, h2, h3]

/-- The health_activities range after update_sheets. -/
theorem update_sheets_health (remote : Remote) (d : SheetsData) :
    (update_sheets remote d).health_activities =
      if d.health_activities.isEmpty then remote.health_activities
      else d.health_activities := by
  unfold update_sheets
  by_cases h1 : d.user_data.isEmpty <;> by_cases h2 : d.health_activities.isEmpty <;>
    by_cases h3 : d.risk_assessment_logs.isEmpty <;> simp [h1, h2, h3]

/-- The risk_assessment_logs range after update_sheets. -/
theorem update_sheets_risk (remote : Remote) (d : SheetsData) :
    (update_sheets remote d).risk_assessment_logs =
      if d.risk_assessment_logs.isEmpty then remote.risk_assessment_logs
      else d.risk_assessment_logs := by
  unfold update_sheets
  by_cases h1 : d.user_data.isEmpty <;> by_cases h2 : d.health_activities.isEmpty <;>
    by_cases h3 : d.risk_assessment_logs.isEmpty <;> simp [h1, h2, h3]

/-- C7 counterexample: a double export from an unchanged one-user database
does not produce identical remote contents both times — each run first
inserts its own SyncRun audit row and then exports the whole log table, so
the risk_assessment_logs range grows from one to two rows between the two
runs (the user_data range does stay identical). -/
theorem export_twice_risk_range_differs :
    (let r1 := sync_to_sheets { users := [emptyEntryRow], activities := [], logs := [] }
        { user_data := [], health_activities := [], risk_assessment_logs := [] } 0
     let r2 := sync_to_sheets r1.db r1.remote r1.clock
     r1.remote.risk_assessment_logs.length = 1 ∧
     r2.remote.risk_assessment_logs.length = 2 ∧
     r1.remote.risk_assessment_logs ≠ r2.remote.risk_assessment_logs ∧
     r2.remote.user_data = r1.remote.user_data) := by
  decide

/-- C7 as amended: running sync_to_sheets twice with no external database
change leaves identical remote contents for the user_data and
health_activities ranges; the risk_assessment_logs range is fully replaced
both times but gains exactly one row per run, since each export first
inserts its own SyncRun audit row and then reads the whole table. A range
with a nonempty export grid becomes exactly the exported rows
(clear-then-overwrite, not append); a range with an empty grid is skipped
and keeps its previous contents. -/
theorem export_twice_range_behaviour (db : DB) (remote : Remote) (clock : Nat) :
    (sync_to_sheets (sync_to_sheets db remote clock).db (sync_to_sheets db remote clock).remote
        (sync_to_sheets db remote clock).clock).remote.user_data =
      (sync_to_sheets db remote clock).remote.user_data ∧
    (sync_to_sheets (sync_to_sheets db remote clock).db (sync_to_sheets db remote clock).remote
        (sync_to_sheets db remote clock).clock).remote.health_activities =
      (sync_to_sheets db remote clock).remote.health_activities ∧
    (sync_to_sheets (sync_to_sheets db remote clock).db (sync_to_sheets db remote clock).remote
        (sync_to_sheets db remote clock).clock).remote.risk_assessment_logs.length =
      (sync_to_sheets db remote clock).remote.risk_assessment_logs.length + 1 ∧
    (db.users ≠ [] →
      (sync_to_sheets db remote clock).remote.user_data = db.users.map userRowStrings) ∧
    (db.users = [] →
      (sync_to_sheets db remote clock).remote.user_data = remote.user_data) := by
  have e1u : (sync_to_sheets db remote clock).remote.user_data =
      if (db.users.map userRowStrings).isEmpty then remote.user_data
      else db.users.map userRowStrings := update_sheets_user remote _
  have e2u : (sync_to_sheets (sync_to_sheets db remote clock).db
        (sync_to_sheets db remote clock).remote
        (sync_to_sheets db remote clock).clock).remote.user_data =
      if (db.users.map userRowStrings).isEmpty
      then (sync_to_sheets db remote clock).remote.user_data
      else db.users.map userRowStrings := update_sheets_user _ _
  have e2h : (sync_to_sheets (sync_to_sheets db remote clock).db
        (sync_to_sheets db remote clock).remote
        (sync_to_sheets db remote clock).clock).remote.health_activities =
      if (db.activities.map activityRowStrings).isEmpty
      then (sync_to_sheets db remote clock).remote.health_activities
      else db.activities.map activityRowStrings := update_sheets_health _ _
  have e1h : (sync_to_sheets db remote clock).remote.health_activities =
      if (db.activities.map activityRowStrings).isEmpty then remote.health_activities
      else db.activities.map activityRowStrings := update_sheets_health remote _
  have hlogs1 : (sync_to_sheets db remote clock).db.logs.length = db.logs.length + 1 := by
    simp [sync_to_sheets, List.dropLast_concat]
  have e1r : (sync_to_sheets db remote clock).remote.risk_assessment_logs =
      (db.logs ++ [startLog db clock "db_to_sheets_sync"]).map logRowStrings := by
    rw [show (sync_to_sheets db remote clock).remote.risk_assessment_logs =
        if ((db.logs ++ [startLog db clock "db_to_sheets_sync"]).map logRowStrings).isEmpty
        then remote.risk_assessment_logs
        else (db.logs ++ [startLog db clock "db_to_sheets_sync"]).map logRowStrings
      from update_sheets_risk remote _]
    simp
  have e2r : (sync_to_sheets (sync_to_sheets db remote clock).db
        (sync_to_sheets db remote clock).remote
        (sync_to_sheets db remote clock).clock).remote.risk_assessment_logs =
      ((sync_to_sheets db remote clock).db.logs ++
        [startLog (sync_to_sheets db remote clock).db
          (sync_to_sheets db remote clock).clock "db_to_sheets_sync"]).map logRowStrings := by
    rw [show (sync_to_sheets (sync_to_sheets db remote clock).db
          (sync_to_sheets db remote clock).remote
          (sync_to_sheets db remote clock).clock).remote.risk_assessment_logs =
        if (((sync_to_sheets db remote clock).db.logs ++
            [startLog (sync_to_sheets db remote clock).db
              (sync_to_sheets db remote clock).clock "db_to_sheets_sync"]).map
                logRowStrings).isEmpty
        then (sync_to_sheets db remote clock).remote.risk_assessment_logs
        else ((sync_to_sheets db remote clock).db.logs ++
          [startLog (sync_to_sheets db remote clock).db
            (sync_to_sheets db remote clock).clock "db_to_sheets_sync"]).map logRowStrings
      from update_sheets_risk _ _]
    simp
  refine ⟨?_, ?_, ?_, ?_, ?_⟩
  · by_cases hemp : (db.users.map userRowStrings).isEmpty
    · rw [e2u, if_pos hemp]
    · rw [e2u, if_neg hemp, e1u, if_neg hemp]
  · by_cases hemp : (db.activities.map activityRowStrings).isEmpty
    · rw [e2h, if_pos hemp]
    · rw [e2h, if_neg hemp, e1h, if_neg hemp]
  · rw [e1r, e2r]
    simp only [List.length_map, List.length_append, List.length_cons, List.length_nil]
    omega
  · intro hne
    rw [e1u, if_neg (by simpa [List.isEmpty_iff, List.map_eq_nil_iff] using hne)]
  · intro heq
    rw [e1u, if_pos (by simp [heq])]

/-- Witness for the amended C7: with one stored user, the first export
writes exactly the serialized user table into the user_data range. -/
theorem export_twice_range_behaviour_witness :
    ({ users := [emptyEntryRow], activities := [], logs := [] } : DB).users ≠ [] ∧
    (sync_to_sheets { users := [emptyEntryRow], activities := [], logs := [] }
        { user_data := [], health_activities := [], risk_assessment_logs := [] }
        0).remote.user_data =
      ({ users := [emptyEntryRow], activities := [], logs := [] } : DB).users.map
        userRowStrings := by
  refine ⟨by simp, ?_⟩
  exact (export_twice_range_behaviour
    { users := [emptyEntryRow], activities := [], logs := [] }
    { user_data := [], health_activities := [], risk_assessment_logs := [] } 0).2.2.2.1
    (by simp)

/-- C3: the bidirectional sync_data opens one outer SyncRun and closes it
success, but executes neither phase: the two async methods are invoked
without await from a synchronous method, so only coroutine objects are
created — the user table, the activity table and the remote sheet are left
untouched, no inner SyncRun rows appear, and the nested results are
unawaited coroutines rather than phase outcomes. -/
theorem sync_data_executes_no_phase (db : DB) (remote : Remote) (clock : Nat) :
    (sync_data db remote clock).remote = remote ∧
    (sync_data db remote clock).db.users = db.users ∧
    (sync_data db remote clock).db.activities = db.activities ∧
    (sync_data db remote clock).db.logs =
      db.logs ++ [{ startLog db clock "synchronization" with
                    sync_end_time := some (clock + 1), sync_status := "success" }] ∧
    (sync_data db remote clock).status = "success" ∧
    (sync_data db remote clock).sheets_to_db =
      PhaseValue.unawaitedCoroutine "SyncService.sync_from_sheets" ∧
    (sync_data db remote clock).db_to_sheets =
      PhaseValue.unawaitedCoroutine "SyncService.sync_to_sheets" := by
  refine ⟨rfl, rfl, rfl, ?_, rfl, rfl, rfl⟩
  simp only [sync_data]
  rw [List.dropLast_concat]
